import Mathlib

/-!
Verification of the kpt-based configuration hydration pipeline
(`pkg/skaffold/deploy/kpt.go`): a shallow embedding of the deployer's
configuration model, its pure argument-building helpers, the manifest
annotation filter, the dependency resolver and the effectful pipeline
(`renderManifests`, `Deploy`, `getApplyDir`), the latter modelled as
functions of an explicit environment that records which external
commands are spawned and what each external collaborator returns.
-/

namespace KptDeploy

/-! ## Configuration model (`latest.KptDeploy` and its subfields) -/

/-- Go type `latest.KptFn`: kpt-function options of the deployer config. -/
structure KptFn where
  fnPath : String
  image : String
  globalScope : Bool
  mount : List String
  network : Bool
  networkName : String
deriving DecidableEq, Repr

/-- Go type `latest.KptApplyInventory`: explicit apply directory and inventory overrides. -/
structure KptApplyInventory where
  dir : String
  inventoryID : String
  inventoryNamespace : String
deriving DecidableEq, Repr

/-- Go type `latest.KptLiveOptions`: flags for `kpt live apply`. -/
structure KptLiveOptions where
  pollPeriod : String
  prunePropagationPolicy : String
  pruneTimeout : String
  reconcileTimeout : String
deriving DecidableEq, Repr

/-- Go type `latest.KptLive`. -/
structure KptLive where
  apply : KptApplyInventory
  options : KptLiveOptions
deriving DecidableEq, Repr

/-- Go type `latest.KptDeploy`: the deployer's configuration (`k.Dir`, `k.Fn`, `k.Live`). -/
structure Config where
  dir : String
  fn : KptFn
  live : KptLive
deriving DecidableEq, Repr

/-- Constant `inventoryTemplate = "inventory-template.yaml"`. -/
def inventoryTemplate : String := "inventory-template.yaml"

/-- Constant `kptHydrated = ".kpt-hydrated"`. -/
def kptHydrated : String := ".kpt-hydrated"

/-- Constant `kptFnAnnotation = "config.kubernetes.io/function"` (the
function-marker annotation key; named `...Key` here). -/
def kptFnAnnotationKey : String := "config.kubernetes.io/function"

/-- Constant `kptFnLocalConfig = "config.kubernetes.io/local-config"`. -/
def kptFnLocalConfig : String := "config.kubernetes.io/local-config"

/-! ## Argument Vector Builder (`kptCommandArgs`) -/

/-- Splitting a character list at every occurrence of `sep`, the
char-level semantics of Go `strings.Split(s, sep)` for a one-character
separator. -/
def splitCharAux (sep : Char) : List Char → List (List Char)
  | [] => [[]]
  | c :: cs =>
    match splitCharAux sep cs with
    | [] => [[]]
    | r :: rs => if c = sep then [] :: r :: rs else (c :: r) :: rs

/-- Go `strings.Split(s, " ")`: split on every single space; an empty
string yields `[""]`, consecutive spaces yield empty tokens. -/
def stringsSplitSpace (s : String) : List String :=
  (splitCharAux ' ' s.data).map (fun l => ⟨l⟩)

/-- Function `kptCommandArgs(dir, commands, flags, globalFlags)`: each Go loop
`for _, v := range xs { args = append(args, strings.Split(v, " ")...) }`
is a fold appending the space-split of each token; the directory is
appended between commands and flags when non-empty. -/
def kptCommandArgs (dir : String) (commands flags globalFlags : List String) :
    List String :=
  let args : List String := []
  let args := commands.foldl (fun a v => a ++ stringsSplitSpace v) args
  let args := if dir.length > 0 then args ++ [dir] else args
  let args := flags.foldl (fun a v => a ++ stringsSplitSpace v) args
  let args := globalFlags.foldl (fun a v => a ++ stringsSplitSpace v) args
  args

theorem foldl_append_split (l : List String) (acc : List String) :
    l.foldl (fun a v => a ++ stringsSplitSpace v) acc =
      acc ++ l.flatMap (fun v => stringsSplitSpace v) := by
  induction l generalizing acc with
  | nil => simp [List.flatMap]
  | cons x xs ih => simp [List.foldl, ih, List.flatMap]

/-- C2: the Argument Vector Builder returns the flat token sequence
obtained by space-splitting each token, in exactly the order: command
tokens, then the directory (omitted when empty), then flag tokens, then
global-flag tokens; and on `dir="test"`, commands `["live","apply"]`,
flags `["--fn-path","a.yaml"]`, globalFlags `["-h"]` it yields
`["live","apply","test","--fn-path","a.yaml","-h"]`. -/
theorem kptCommandArgs_spec :
    (∀ (dir : String) (commands flags globalFlags : List String),
      kptCommandArgs dir commands flags globalFlags =
        commands.flatMap (fun v => stringsSplitSpace v)
          ++ (if dir.length > 0 then [dir] else [])
          ++ flags.flatMap (fun v => stringsSplitSpace v)
          ++ globalFlags.flatMap (fun v => stringsSplitSpace v))
    ∧ kptCommandArgs "test" ["live", "apply"] ["--fn-path", "a.yaml"] ["-h"] =
        ["live", "apply", "test", "--fn-path", "a.yaml", "-h"] := by
  constructor
  · intro dir commands flags globalFlags
    by_cases h : dir.length > 0 <;>
      simp [kptCommandArgs, foldl_append_split, h]
  · decide

/-! ## `getKptFnRunArgs`: flags for `kpt fn run` -/

/-- Function `getKptFnRunArgs`: builds the `kpt fn run` flag list; appending
`--fn-path` and `--image` each bump `count`, and `count > 1` is the
configuration error `only one of `fn-path` or `image` may be specified`. -/
def getKptFnRunArgs (k : Config) : Except String (List String) :=
  let flags := ["--dry-run"]
  let flags := if k.fn.globalScope then flags ++ ["--global-scope"] else flags
  let flags := if k.fn.mount.length > 0 then
    flags ++ ["--mount", String.intercalate "," k.fn.mount] else flags
  let flags := if k.fn.network then flags ++ ["--network"] else flags
  let flags := if k.fn.networkName.length > 0 then
    flags ++ ["--network-name", k.fn.networkName] else flags
  let count : Nat := 0
  let p := if k.fn.fnPath.length > 0 then
    (flags ++ ["--fn-path", k.fn.fnPath], count + 1) else (flags, count)
  let p := if k.fn.image.length > 0 then
    (p.1 ++ ["--image", k.fn.image], p.2 + 1) else p
  if p.2 > 1 then .error "only one of `fn-path` or `image` may be specified"
  else .ok p.1

/-! ## Manifest documents and the Function-Annotation Filter -/

/-- The structured view of one manifest document, as seen by
`unstructured.Unstructured` after `YAMLToJSON` + `UnmarshalJSON`: its
annotation map (`GetAnnotations`, an association list here) and the rest
of the object, opaque to the filter. -/
structure Obj where
  annotations : List (String × String)
  payload : String
deriving DecidableEq, Repr

/-- Map lookup `GetAnnotations()[key]` on the association list. -/
def lookupAnn : List (String × String) → String → Option String
  | [], _ => none
  | p :: ps, key => if p.1 = key then some p.2 else lookupAnn ps key

/-- Go map assignment `anns[key] = val`: overwrite an existing entry or
append a new one. -/
def setAnn (anns : List (String × String)) (key val : String) :
    List (String × String) :=
  if (lookupAnn anns key).isSome then
    anns.map (fun p => if p.1 = key then (key, val) else p)
  else anns ++ [(key, val)]

/-- One serialized document (`yByte`) of a `deploy.ManifestList`.
`raw bytes obj` is a document whose bytes unmarshal (after YAML-to-JSON
conversion) to `obj`; pairing the two encodes that unmarshalling is a
function of the bytes. `bad bytes` is a document on which
`obj.UnmarshalJSON` fails (including the case where `YAMLToJSON` itself
failed and its error was discarded, leaving unparseable input). -/
inductive MDoc where
  | raw (bytes : String) (obj : Obj)
  | bad (bytes : String)
deriving DecidableEq, Repr

/-- Canonical re-serialization `JSONToYAML(obj.MarshalJSON())` of a
structured object, opaque apart from being a function of the object; a
document emitted this way parses back to the same object (round-trip
property of the marshalling pair), which `excludeStep` encodes by
emitting `.raw (serializeObj o) o`. -/
def serializeObj (o : Obj) : String :=
  "#" ++ String.intercalate ";" (o.annotations.map (fun p => p.1 ++ "=" ++ p.2))
    ++ "#" ++ o.payload

/-- The body of `ExcludeKptFn`'s loop on one document: fail on a document
that does not unmarshal; pass through (bytes untouched) a document
without the function-marker annotation, or one that already has the
local-config annotation; otherwise add `local-config: "true"` and
re-serialize. -/
def excludeStep (d : MDoc) : Except String MDoc :=
  match d with
  | .bad _ => .error "unmarshaling config"
  | .raw b o =>
    if (lookupAnn o.annotations kptFnAnnotationKey).isSome = false then
      .ok (.raw b o)
    else if (lookupAnn o.annotations kptFnLocalConfig).isSome then
      .ok (.raw b o)
    else
      let o' : Obj :=
        { o with annotations := setAnn o.annotations kptFnLocalConfig "true" }
      .ok (.raw (serializeObj o') o')

/-- Function `ExcludeKptFn`: process the manifest list document by document,
aborting with the first error and returning no output in that case. -/
def ExcludeKptFn : List MDoc → Except String (List MDoc)
  | [] => .ok []
  | d :: ds =>
    match excludeStep d with
    | .error e => .error e
    | .ok d' =>
      match ExcludeKptFn ds with
      | .error e => .error e
      | .ok ds' => .ok (d' :: ds')

theorem lookupAnn_append_left (l1 l2 : List (String × String)) (key : String)
    (h : (lookupAnn l1 key).isSome) :
    lookupAnn (l1 ++ l2) key = lookupAnn l1 key := by
  induction l1 with
  | nil => simp [lookupAnn] at h
  | cons p ps ih =>
    by_cases hp : p.1 = key
    · simp [lookupAnn, hp]
    · rw [lookupAnn, if_neg hp] at h
      simp only [List.cons_append, lookupAnn, if_neg hp]
      exact ih h

theorem lookupAnn_append_right (l1 l2 : List (String × String)) (key : String)
    (h : lookupAnn l1 key = none) :
    lookupAnn (l1 ++ l2) key = lookupAnn l2 key := by
  induction l1 with
  | nil => simp
  | cons p ps ih =>
    by_cases hp : p.1 = key
    · rw [lookupAnn, if_pos hp] at h
      simp at h
    · rw [lookupAnn, if_neg hp] at h
      simp only [List.cons_append, lookupAnn, if_neg hp]
      exact ih h

theorem setAnn_of_lookup_none (anns : List (String × String)) (key val : String)
    (h : lookupAnn anns key = none) :
    setAnn anns key val = anns ++ [(key, val)] := by
  simp [setAnn, h]

/-- Every successful output of `excludeStep` is a fixed point of
`excludeStep`: it either lacks the function-marker annotation or already
carries the local-config annotation. -/
theorem excludeStep_fixpoint (d d' : MDoc) (h : excludeStep d = .ok d') :
    excludeStep d' = .ok d' := by
  cases d with
  | bad b => simp [excludeStep] at h
  | raw b o =>
    by_cases hm : (lookupAnn o.annotations kptFnAnnotationKey).isSome = false
    · rw [excludeStep, if_pos hm] at h
      cases h
      rw [excludeStep, if_pos hm]
    · by_cases hl : (lookupAnn o.annotations kptFnLocalConfig).isSome
      · rw [excludeStep, if_neg hm, if_pos hl] at h
        cases h
        rw [excludeStep, if_neg hm, if_pos hl]
      · rw [excludeStep, if_neg hm, if_neg hl] at h
        simp only at h
        cases h
        have hnone : lookupAnn o.annotations kptFnLocalConfig = none := by
          cases hx : lookupAnn o.annotations kptFnLocalConfig with
          | none => rfl
          | some v => rw [hx] at hl; simp at hl
        have hset := setAnn_of_lookup_none o.annotations kptFnLocalConfig "true" hnone
        have hm2 : (lookupAnn o.annotations kptFnAnnotationKey).isSome = true := by
          cases hx : lookupAnn o.annotations kptFnAnnotationKey with
          | none => rw [hx] at hm; simp at hm
          | some v => simp
        have hmark :
            (lookupAnn (setAnn o.annotations kptFnLocalConfig "true")
              kptFnAnnotationKey).isSome = true := by
          rw [hset, lookupAnn_append_left _ _ _ hm2]
          exact hm2
        have hloc :
            (lookupAnn (setAnn o.annotations kptFnLocalConfig "true")
              kptFnLocalConfig).isSome = true := by
          rw [hset, lookupAnn_append_right _ _ _ hnone]
          simp [lookupAnn, List.find?]
        rw [excludeStep]
        simp only [hmark, hloc]
        simp

/-- C3: the Function-Annotation Filter is idempotent — whenever
`ExcludeKptFn S` succeeds with output `T`, running it again on `T`
succeeds and returns `T` unchanged, because every document it emitted
either lacks the function-marker annotation or already carries the
local-config annotation and is therefore skipped by the presence check
on the second pass. -/
theorem excludeKptFn_idempotent (S T : List MDoc) (h : ExcludeKptFn S = .ok T) :
    ExcludeKptFn T = .ok T := by
  induction S generalizing T with
  | nil =>
    rw [ExcludeKptFn] at h
    cases h
    rfl
  | cons d ds ih =>
    rw [ExcludeKptFn] at h
    cases hs : excludeStep d with
    | error e => rw [hs] at h; simp at h
    | ok d' =>
      rw [hs] at h
      cases hr : ExcludeKptFn ds with
      | error e => rw [hr] at h; simp at h
      | ok ds' =>
        rw [hr] at h
        simp only at h
        cases h
        rw [ExcludeKptFn, excludeStep_fixpoint d d' hs, ih ds' hr]

/-- A witness run of the idempotence theorem: a one-document set carrying
the function-marker annotation is annotated on the first pass and left
unchanged by the second. -/
theorem excludeKptFn_idempotent_witness :
    ExcludeKptFn
        [MDoc.raw
          (serializeObj
            { annotations :=
                [(kptFnAnnotationKey, "gcr.io/fn:v1"),
                 (kptFnLocalConfig, "true")],
              payload := "kind: ConfigMap" })
          { annotations :=
              [(kptFnAnnotationKey, "gcr.io/fn:v1"),
               (kptFnLocalConfig, "true")],
            payload := "kind: ConfigMap" }] =
      .ok
        [MDoc.raw
          (serializeObj
            { annotations :=
                [(kptFnAnnotationKey, "gcr.io/fn:v1"),
                 (kptFnLocalConfig, "true")],
              payload := "kind: ConfigMap" })
          { annotations :=
              [(kptFnAnnotationKey, "gcr.io/fn:v1"),
               (kptFnLocalConfig, "true")],
            payload := "kind: ConfigMap" }] :=
  excludeKptFn_idempotent
    [MDoc.raw "kind: ConfigMap"
      { annotations := [(kptFnAnnotationKey, "gcr.io/fn:v1")],
        payload := "kind: ConfigMap" }]
    _ rfl

/-- A document the filter must leave byte-for-byte unchanged: one whose
object does not carry the function-marker annotation, or one that
carries it but already has the local-config annotation (any value).
A document that fails to unmarshal never reaches the output, so it is
excluded from the predicate. -/
def untouchable (d : MDoc) : Prop :=
  match d with
  | .raw _ o =>
      lookupAnn o.annotations kptFnAnnotationKey = none ∨
        (lookupAnn o.annotations kptFnLocalConfig).isSome = true
  | .bad _ => False

theorem excludeStep_untouchable (d : MDoc) (h : untouchable d) :
    excludeStep d = .ok d := by
  cases d with
  | bad b => cases h
  | raw b o =>
    cases h with
    | inl hnone =>
      rw [excludeStep, if_pos]
      rw [hnone]
      rfl
    | inr hloc =>
      by_cases hm : (lookupAnn o.annotations kptFnAnnotationKey).isSome = false
      · rw [excludeStep, if_pos hm]
      · rw [excludeStep, if_neg hm, if_pos hloc]

/-- C4: frame property of the Function-Annotation Filter — on every
manifest list where `ExcludeKptFn` succeeds, the output corresponds
document-for-document to the input, and any input document either
lacking the function-marker annotation or already carrying the
local-config annotation reappears in the output as the very same
serialized bytes. -/
theorem excludeKptFn_frame (S T : List MDoc) (h : ExcludeKptFn S = .ok T) :
    List.Forall₂ (fun d t => untouchable d → t = d) S T := by
  induction S generalizing T with
  | nil =>
    rw [ExcludeKptFn] at h
    cases h
    exact List.Forall₂.nil
  | cons d ds ih =>
    rw [ExcludeKptFn] at h
    cases hs : excludeStep d with
    | error e => rw [hs] at h; simp at h
    | ok d' =>
      rw [hs] at h
      cases hr : ExcludeKptFn ds with
      | error e => rw [hr] at h; simp at h
      | ok ds' =>
        rw [hr] at h
        simp only at h
        cases h
        refine List.Forall₂.cons (fun hu => ?_) (ih ds' hr)
        rw [excludeStep_untouchable d hu] at hs
        cases hs
        rfl

/-- A witness run of the frame theorem: a two-document set — one plain
document without the marker, one marked function config that already has
the local-config annotation — passes through `ExcludeKptFn` with both
documents byte-for-byte unchanged. -/
theorem excludeKptFn_frame_witness :
    List.Forall₂ (fun d t => untouchable d → t = d)
      [MDoc.raw "kind: Pod" { annotations := [], payload := "kind: Pod" },
       MDoc.raw "kind: Fn"
         { annotations :=
             [(kptFnAnnotationKey, "img"), (kptFnLocalConfig, "false")],
           payload := "kind: Fn" }]
      [MDoc.raw "kind: Pod" { annotations := [], payload := "kind: Pod" },
       MDoc.raw "kind: Fn"
         { annotations :=
             [(kptFnAnnotationKey, "img"), (kptFnLocalConfig, "false")],
           payload := "kind: Fn" }] :=
  excludeKptFn_frame
    [MDoc.raw "kind: Pod" { annotations := [], payload := "kind: Pod" },
     MDoc.raw "kind: Fn"
       { annotations :=
           [(kptFnAnnotationKey, "img"), (kptFnLocalConfig, "false")],
         payload := "kind: Fn" }]
    _ rfl

/-- C10: the Function-Annotation Filter is all-or-nothing — if any
document of the set fails to unmarshal (including when the discarded
YAML-to-JSON conversion error left unparseable input), `ExcludeKptFn`
returns an error and no output list at all. -/
theorem excludeKptFn_error_on_bad (S : List MDoc)
    (h : ∃ b, MDoc.bad b ∈ S) :
    ∃ e, ExcludeKptFn S = .error e := by
  induction S with
  | nil =>
    obtain ⟨b, hb⟩ := h
    cases hb
  | cons d ds ih =>
    obtain ⟨b, hb⟩ := h
    rw [ExcludeKptFn]
    cases hd : excludeStep d with
    | error e => exact ⟨e, rfl⟩
    | ok d' =>
      have hmem : MDoc.bad b ∈ ds := by
        cases hb with
        | head =>
          rw [excludeStep] at hd
          simp at hd
        | tail _ hm => exact hm
      obtain ⟨e, he⟩ := ih ⟨b, hmem⟩
      rw [he]
      exact ⟨e, rfl⟩

/-- A witness run of the all-or-nothing theorem: a set holding one good
document and one that fails to unmarshal is rejected outright. -/
theorem excludeKptFn_error_on_bad_witness :
    ∃ e,
      ExcludeKptFn
          [MDoc.raw "kind: Pod" { annotations := [], payload := "kind: Pod" },
           MDoc.bad "not valid yaml"] =
        .error e :=
  excludeKptFn_error_on_bad
    [MDoc.raw "kind: Pod" { annotations := [], payload := "kind: Pod" },
     MDoc.bad "not valid yaml"]
    ⟨"not valid yaml", by decide⟩

/-! ## Dependency Resolver (`getResources`, `Dependencies`) -/

/-- A filesystem entry: a plain file or a directory with its entries, in
the lexical order `filepath.Walk` visits them. -/
inductive FTree where
  | file (name : String)
  | dir (name : String) (entries : List FTree)

/-- Components of a path split on `/` (structural, for `baseName`). -/
def splitSlash (s : String) : List String :=
  (splitCharAux '/' s.data).map (fun l => ⟨l⟩)

/-- Go `filepath.Base` on slash-joined paths: the last path component. -/
def baseName (p : String) : String :=
  (splitSlash p).getLastD "."

mutual

/-- The visit sequence of `filepath.Walk` below a parent path: each
entry yields its joined path and whether it is a directory, a directory
before its children. -/
def walkTree (parent : String) : FTree → List (String × Bool)
  | .file name => [(parent ++ "/" ++ name, false)]
  | .dir name entries => (parent ++ "/" ++ name, true) ::
      walkList (parent ++ "/" ++ name) entries

/-- Map of `walkTree` over a list of sibling entries, in order. -/
def walkList (parent : String) : List FTree → List (String × Bool)
  | [] => []
  | t :: ts => walkTree parent t ++ walkList parent ts

end

/-- The full visit sequence of `filepath.Walk(root, ...)`: the root
itself (a directory) first, then its entries. -/
def walkRoot (root : String) (entries : List FTree) : List (String × Bool) :=
  (root, true) :: walkList root entries

/-- The constant regular expression `\.ya?ml$` of `getResources`, as a
predicate on the base name: it matches exactly the names ending in
`.yaml` or `.yml` (case-sensitively). -/
def isResourceName (base : String) : Bool :=
  ".yaml".data.isSuffixOf base.data || ".yml".data.isSuffixOf base.data

/-- Function `getResources(root)`: `os.Stat` failing with not-exist (modelled as
`none` for the directory contents) is returned as an error; otherwise
walk the tree and keep every visited non-directory path whose base name
matches `\.ya?ml$`. -/
def getResources (root : String) (fs : Option (List FTree)) :
    Except String (List String) :=
  match fs with
  | none => .error ("stat " ++ root ++ ": no such file or directory")
  | some entries =>
    .ok (((walkRoot root entries).filter
      (fun p => !p.2 && isResourceName (baseName p.1))).map Prod.fst)

mutual

/-- All non-directory file paths below a parent, the reference reading
of "the files under the root (recursively)" used to state C5. -/
def filesUnderTree (parent : String) : FTree → List String
  | .file name => [parent ++ "/" ++ name]
  | .dir name entries => filesUnderList (parent ++ "/" ++ name) entries

/-- Map of `filesUnderTree` over sibling entries, in order. -/
def filesUnderList (parent : String) : List FTree → List String
  | [] => []
  | t :: ts => filesUnderTree parent t ++ filesUnderList parent ts

end

mutual

theorem walkTree_filter (parent : String) (t : FTree) :
    ((walkTree parent t).filter
        (fun p => !p.2 && isResourceName (baseName p.1))).map Prod.fst =
      (filesUnderTree parent t).filter (fun p => isResourceName (baseName p)) := by
  cases t with
  | file name =>
    simp [walkTree, filesUnderTree, List.filter]
    cases isResourceName (baseName (parent ++ "/" ++ name)) <;> simp
  | dir name entries =>
    simp only [walkTree, filesUnderTree, List.filter]
    exact walkList_filter (parent ++ "/" ++ name) entries

theorem walkList_filter (parent : String) (ts : List FTree) :
    ((walkList parent ts).filter
        (fun p => !p.2 && isResourceName (baseName p.1))).map Prod.fst =
      (filesUnderList parent ts).filter (fun p => isResourceName (baseName p)) := by
  cases ts with
  | nil => simp [walkList, filesUnderList]
  | cons t ts =>
    simp only [walkList, filesUnderList, List.filter_append, List.map_append]
    rw [walkTree_filter parent t, walkList_filter parent ts]

end

/-- C5: on an existing root directory, `getResources` returns exactly
the non-directory files under it (recursively) whose base name ends in
`.yaml` or `.yml`; in particular a root holding `foo.yaml`, `bar.yml`
and `README.md` yields exactly `root/foo.yaml` and `root/bar.yml`. -/
theorem getResources_spec :
    (∀ (root : String) (entries : List FTree),
      getResources root (some entries) =
        .ok ((filesUnderList root entries).filter
          (fun p => isResourceName (baseName p))))
    ∧ getResources "root"
        (some [.file "foo.yaml", .file "bar.yml", .file "README.md"]) =
        .ok ["root/foo.yaml", "root/bar.yml"] := by
  constructor
  · intro root entries
    simp only [getResources, walkRoot, List.filter]
    rw [Except.ok.injEq]
    simpa using walkList_filter root entries
  · rfl

/-! ## `Dependencies` -/

/-- Lexicographic comparison of strings as character lists (the sort
order of the string-set helper). -/
def charListLe : List Char → List Char → Bool
  | [], _ => true
  | _ :: _, [] => false
  | c :: cs, d :: ds => if c = d then charListLe cs ds else decide (c < d)

/-- Insert a path into a sorted list of paths. -/
def insertSorted (x : String) : List String → List String
  | [] => [x]
  | y :: ys => if charListLe x.data y.data then x :: y :: ys
      else y :: insertSorted x ys

/-- Insertion sort over paths. -/
def sortStrings (l : List String) : List String :=
  l.foldr insertSorted []

/-- Modelled from the spec: the string-set helper used by
`Dependencies` (`newStringSet`/`insert`/`toList`), "a deduplicated,
sorted collection of filesystem paths"; `toList` sorts the inserted
paths and drops duplicates. -/
def stringSetToList (l : List String) : List String :=
  (sortStrings l).dedup

/-- The environment Dependencies and the pipeline run against: the
contents of the configured directory (`none` when it does not exist)
together with the results the external collaborators produce. The
fields after `rootFs` model repository code outside this package
(`dependenciesForKustomization`, modelled from the spec as the opaque
set of paths referenced by a templating config directly under the root)
and the outputs of external subprocesses. -/
structure DepsEnv where
  rootFs : Option (List FTree)
  kustomizeDeps : Except String (List String)

/-- Function `Dependencies`: insert the function path when configured, add
`getResources` of the root (wrapping its error), add the kustomization
dependencies (wrapping their error), and return the deduplicated sorted
set. -/
def Dependencies (k : Config) (env : DepsEnv) : Except String (List String) :=
  let deps0 : List String :=
    if k.fn.fnPath.length > 0 then [k.fn.fnPath] else []
  match getResources k.dir env.rootFs with
  | .error e => .error ("finding dependencies in " ++ k.dir ++ ": " ++ e)
  | .ok configDeps =>
    match env.kustomizeDeps with
    | .error e =>
        .error ("finding kustomization directly under " ++ k.dir ++ ": " ++ e)
    | .ok kustomizationDeps =>
        .ok (stringSetToList (deps0 ++ configDeps ++ kustomizationDeps))

theorem mem_insertSorted (x a : String) (l : List String) :
    a ∈ insertSorted x l ↔ a = x ∨ a ∈ l := by
  induction l with
  | nil => simp [insertSorted]
  | cons y ys ih =>
    rw [insertSorted]
    by_cases h : charListLe x.data y.data
    · simp [h]
    · simp only [h, if_neg, Bool.false_eq_true, not_false_eq_true, List.mem_cons, ih]
      tauto

theorem mem_sortStrings (l : List String) (x : String) :
    x ∈ sortStrings l ↔ x ∈ l := by
  induction l with
  | nil => simp [sortStrings]
  | cons y ys ih =>
    simp only [sortStrings, List.foldr] at *
    rw [mem_insertSorted, ih, List.mem_cons]

theorem mem_stringSetToList (l : List String) (x : String) :
    x ∈ stringSetToList l ↔ x ∈ l := by
  unfold stringSetToList
  rw [List.mem_dedup]
  exact mem_sortStrings l x

/-- C6: a missing root path makes `getResources` — and `Dependencies`
with it — fail with a not-found error, while an existing empty root
yields the successful empty list, so the two situations are
distinguishable. -/
theorem getResources_missing_root_spec :
    (∀ root : String,
      getResources root none =
        .error ("stat " ++ root ++ ": no such file or directory"))
    ∧ (∀ root : String, getResources root (some []) = .ok [])
    ∧ (∀ (k : Config) (env : DepsEnv), env.rootFs = none →
        Dependencies k env =
          .error ("finding dependencies in " ++ k.dir ++ ": "
            ++ ("stat " ++ k.dir ++ ": no such file or directory"))) := by
  refine ⟨fun root => rfl, fun root => rfl, fun k env h => ?_⟩
  simp only [Dependencies, h, getResources]

/-- A witness run of the missing-root theorem: a concrete configuration
whose directory does not exist is rejected by `Dependencies` with the
wrapped not-found error. -/
theorem getResources_missing_root_witness :
    Dependencies
        { dir := "cfg",
          fn := { fnPath := "", image := "", globalScope := false,
                  mount := [], network := false, networkName := "" },
          live :=
            { apply := { dir := "", inventoryID := "", inventoryNamespace := "" },
              options := { pollPeriod := "", prunePropagationPolicy := "",
                           pruneTimeout := "", reconcileTimeout := "" } } }
        { rootFs := none, kustomizeDeps := .ok [] } =
      .error
        "finding dependencies in cfg: stat cfg: no such file or directory" :=
  getResources_missing_root_spec.2.2
    { dir := "cfg",
      fn := { fnPath := "", image := "", globalScope := false,
              mount := [], network := false, networkName := "" },
      live :=
        { apply := { dir := "", inventoryID := "", inventoryNamespace := "" },
          options := { pollPeriod := "", prunePropagationPolicy := "",
                       pruneTimeout := "", reconcileTimeout := "" } } }
    { rootFs := none, kustomizeDeps := .ok [] } rfl

/-- C7 counterexample: with root directory `config` holding
`deployment.yaml` and a directory function-path `kpt-fn` that (on disk)
holds `kpt-func.yaml`, `Dependencies` returns only the path `kpt-fn`
itself — the file `kpt-fn/kpt-func.yaml` under the directory
function-path is not in the returned dependency set, because
`Dependencies` merely inserts `k.Fn.FnPath` as a single path and never
applies the `.yaml`/`.yml` discovery rule to it. -/
theorem dependencies_fnPath_dir_counterexample :
    Dependencies
        { dir := "config",
          fn := { fnPath := "kpt-fn", image := "", globalScope := false,
                  mount := [], network := false, networkName := "" },
          live :=
            { apply := { dir := "", inventoryID := "", inventoryNamespace := "" },
              options := { pollPeriod := "", prunePropagationPolicy := "",
                           pruneTimeout := "", reconcileTimeout := "" } } }
        { rootFs := some [.file "deployment.yaml"], kustomizeDeps := .ok [] } =
      .ok ["config/deployment.yaml", "kpt-fn"] ∧
    "kpt-fn/kpt-func.yaml" ∉ (["config/deployment.yaml", "kpt-fn"] : List String) := by
  exact ⟨rfl, by decide⟩

/-- C7 (amended): when a function-path is configured and the root
resolution and kustomization lookup succeed, `Dependencies` succeeds and
unions the function-path itself — as a single path — into the returned
set, regardless of the function-path's own contents (in particular it
need not contain a templating config); files under a directory
function-path are not individually discovered. -/
theorem dependencies_fnPath_spec (k : Config) (env : DepsEnv)
    (hfn : k.fn.fnPath.length > 0) (cd kd : List String)
    (hc : getResources k.dir env.rootFs = .ok cd)
    (hk : env.kustomizeDeps = .ok kd) :
    Dependencies k env = .ok (stringSetToList ([k.fn.fnPath] ++ cd ++ kd))
    ∧ k.fn.fnPath ∈ stringSetToList ([k.fn.fnPath] ++ cd ++ kd) := by
  constructor
  · simp only [Dependencies, hc, hk, if_pos hfn]
  · rw [mem_stringSetToList]
    simp

/-- A witness run of the amended C7 theorem on the counterexample's
configuration: the function-path `kpt-fn` itself is in the returned
dependency set. -/
theorem dependencies_fnPath_spec_witness :
    Dependencies
        { dir := "config",
          fn := { fnPath := "kpt-fn", image := "", globalScope := false,
                  mount := [], network := false, networkName := "" },
          live :=
            { apply := { dir := "", inventoryID := "", inventoryNamespace := "" },
              options := { pollPeriod := "", prunePropagationPolicy := "",
                           pruneTimeout := "", reconcileTimeout := "" } } }
        { rootFs := some [.file "deployment.yaml"], kustomizeDeps := .ok [] } =
      .ok (stringSetToList (["kpt-fn"] ++ ["config/deployment.yaml"] ++ []))
    ∧ "kpt-fn" ∈ stringSetToList (["kpt-fn"] ++ ["config/deployment.yaml"] ++ []) :=
  dependencies_fnPath_spec
    { dir := "config",
      fn := { fnPath := "kpt-fn", image := "", globalScope := false,
              mount := [], network := false, networkName := "" },
      live :=
        { apply := { dir := "", inventoryID := "", inventoryNamespace := "" },
          options := { pollPeriod := "", prunePropagationPolicy := "",
                       pruneTimeout := "", reconcileTimeout := "" } } }
    { rootFs := some [.file "deployment.yaml"], kustomizeDeps := .ok [] }
    (by decide) ["config/deployment.yaml"] [] rfl rfl

/-! ## The hydration pipeline (`renderManifests`, `Deploy`, `getApplyDir`)

The effectful orchestration is embedded as functions of an explicit
environment holding what each external collaborator returns; each
function also yields the ordered list of external commands it spawned
and internal stages it ran, so "stage X did (not) run" is a statement
about that trace. -/

/-- Constant `pipeline = ".pipeline"`. -/
def pipeline : String := ".pipeline"

/-- External commands spawned and internal stages run by the pipeline. -/
inductive Stage where
  | fnSource
  | fnSink
  | kustomizeBuild
  | fnRun
  | excludeFilter
  | replaceImages
  | transforms
  | setLabels
  | liveInit
  | liveApply
deriving DecidableEq, Repr

/-- Results of the external collaborators and OS calls the render
pipeline makes, in program order. `fnRunOut` is the parsed manifest list
`kpt fn run` printed (empty output gives the empty list). The three
`...Fn` fields stand for `ReplaceImages`, the `manifestTransforms` hook
list and `SetLabels` of the manifest package, which live outside this
source file and are kept opaque. -/
structure PipeEnv where
  debugRegistry : Except String String
  removeAllRes : Except String Unit
  mkdirAllRes : Except String Unit
  fnSourceOut : Except String String
  fnSinkRes : Except String Unit
  hasKustomization : Bool
  kustomizeBuildRes : Except String Unit
  kustomizeDeps : Except String (List String)
  removeDepsRes : Except String Unit
  fnRunOut : Except String (List MDoc)
  replaceImagesFn : List MDoc → Except String (List MDoc)
  transformsFns : List (List MDoc → Except String (List MDoc))
  setLabelsFn : List MDoc → Except String (List MDoc)

/-- Function `readConfigs`: `kpt fn source k.Dir` piped into
`kpt fn sink .pipeline/k.Dir`; the sink only runs when the source
succeeded. -/
def readConfigs (env : PipeEnv) : List Stage × Except String Unit :=
  match env.fnSourceOut with
  | .error e => ([.fnSource], .error e)
  | .ok _ =>
    match env.fnSinkRes with
    | .error e => ([.fnSource, .fnSink], .error e)
    | .ok _ => ([.fnSource, .fnSink], .ok ())

/-- Function `kustomizeBuild`: silently skipped when no kustomization config is
found directly under `k.Dir`; otherwise run `kustomize build`, find the
kustomization dependencies and remove their dry copies from
`.pipeline`. -/
def kustomizeBuild (env : PipeEnv) : List Stage × Except String Unit :=
  if env.hasKustomization = false then ([], .ok ())
  else
    match env.kustomizeBuildRes with
    | .error e => ([.kustomizeBuild], .error e)
    | .ok _ =>
      match env.kustomizeDeps with
      | .error e =>
          ([.kustomizeBuild], .error ("finding kustomization dependencies: " ++ e))
      | .ok _ =>
        match env.removeDepsRes with
        | .error e => ([.kustomizeBuild], .error e)
        | .ok _ => ([.kustomizeBuild], .ok ())

/-- Function `kptFnRun`: compute the `kpt fn run` flags first — a flag error
(wrapped as `getting kpt fn run args`) returns before the subprocess is
spawned — then run `kpt fn run` and parse its output. -/
def kptFnRun (k : Config) (env : PipeEnv) :
    List Stage × Except String (List MDoc) :=
  match getKptFnRunArgs k with
  | .error e => ([], .error ("getting kpt fn run args: " ++ e))
  | .ok _ =>
    match env.fnRunOut with
    | .error e => ([.fnRun], .error e)
    | .ok ms => ([.fnRun], .ok ms)

/-- Fold of the `manifestTransforms` hook list; the first error aborts. -/
def runTransforms :
    List (List MDoc → Except String (List MDoc)) → List MDoc →
      Except String (List MDoc)
  | [], ms => .ok ms
  | f :: fs, ms =>
    match f ms with
    | .error e => .error e
    | .ok ms' => runTransforms fs ms'

/-- The tail of `renderManifests` after the kpt function run: the
short-circuit on an empty manifest set, then filter, image replacement,
the transform hooks and label injection; each failure is wrapped with
its stage identity. -/
def renderTail (env : PipeEnv) (tr : List Stage) (manifests : List MDoc) :
    List Stage × Except String (List MDoc) :=
  if manifests.length = 0 then (tr, .ok [])
  else
    match ExcludeKptFn manifests with
    | .error e =>
        (tr ++ [.excludeFilter],
          .error ("exclude kpt fn from manipulated resources: " ++ e))
    | .ok m1 =>
    match env.replaceImagesFn m1 with
    | .error e =>
        (tr ++ [.excludeFilter, .replaceImages],
          .error ("replacing images in manifests: " ++ e))
    | .ok m2 =>
    match runTransforms env.transformsFns m2 with
    | .error e =>
        (tr ++ [.excludeFilter, .replaceImages, .transforms],
          .error ("unable to transform manifests: " ++ e))
    | .ok m3 =>
        (tr ++ [.excludeFilter, .replaceImages, .transforms, .setLabels],
          env.setLabelsFn m3)

/-- Function `renderManifests`: debug-registry lookup, scratch-directory reset,
source/sink copy, optional kustomize build, kpt function run, then the
tail stages of `renderTail`. -/
def renderManifests (k : Config) (env : PipeEnv) :
    List Stage × Except String (List MDoc) :=
  match env.debugRegistry with
  | .error e => ([], .error ("retrieving debug helpers registry: " ++ e))
  | .ok _ =>
  match env.removeAllRes with
  | .error e =>
      ([], .error ("deleting temporary directory " ++ pipeline ++ "/" ++ k.dir
        ++ ": " ++ e))
  | .ok _ =>
  match env.mkdirAllRes with
  | .error e =>
      ([], .error ("creating temporary directory " ++ pipeline ++ "/" ++ k.dir
        ++ ": " ++ e))
  | .ok _ =>
  match readConfigs env with
  | (tr1, .error e) => (tr1, .error ("reading config manifests: " ++ e))
  | (tr1, .ok _) =>
  match kustomizeBuild env with
  | (tr2, .error e) => (tr1 ++ tr2, .error ("kustomize build: " ++ e))
  | (tr2, .ok _) =>
  match kptFnRun k env with
  | (tr3, .error e) =>
      (tr1 ++ tr2 ++ tr3, .error ("running kpt functions: " ++ e))
  | (tr3, .ok manifests) => renderTail env (tr1 ++ tr2 ++ tr3) manifests

/-- Filesystem state seen by `getApplyDir`: whether the explicitly
configured apply directory exists, and whether `.kpt-hydrated` and its
`inventory-template.yaml` marker exist. -/
structure ApplyState where
  explicitDirExists : Bool
  hydratedExists : Bool
  markerExists : Bool
deriving DecidableEq, Repr

/-- Results of the OS call and the subprocess `getApplyDir` makes. -/
structure ApplyEnv where
  mkdirHydratedRes : Except String Unit
  liveInitRes : Except String Unit

/-- Function `getApplyDir`: an explicitly configured apply directory must already
exist (never created); otherwise `.kpt-hydrated` is created if absent
and `kpt live init` is spawned exactly when the inventory-template
marker is missing. Modelled from the spec: a successful `kpt live init`
(the external one-time initialization of §6) materializes the
inventory-template marker inside the hydrated directory, which the
state transition records by setting `markerExists`. -/
def getApplyDir (k : Config) (env : ApplyEnv) (s : ApplyState) :
    ApplyState × List Stage × Except String String :=
  if k.live.apply.dir.length > 0 then
    if s.explicitDirExists = false then
      (s, [], .error ("stat " ++ k.live.apply.dir ++ ": no such file or directory"))
    else (s, [], .ok k.live.apply.dir)
  else
    match env.mkdirHydratedRes with
    | .error e =>
        (s, [], .error ("applyDir was unspecified. creating applyDir: " ++ e))
    | .ok _ =>
      let s1 : ApplyState := { s with hydratedExists := true }
      if s1.markerExists = false then
        match env.liveInitRes with
        | .error e => (s1, [.liveInit], .error e)
        | .ok _ => ({ s1 with markerExists := true }, [.liveInit], .ok kptHydrated)
      else (s1, [], .ok kptHydrated)

/-- Environment of `Deploy`: the render environment plus
`CollectNamespaces` (an error there is surfaced as an event and the
deploy continues with no namespaces), the apply-directory calls and
`kpt live apply`. -/
structure DeployEnv where
  pipe : PipeEnv
  collectNs : Except String (List String)
  applyEnv : ApplyEnv
  liveApplyRes : Except String Unit

/-- Function `Deploy`: render, return `(nil, nil)` when the rendered set is
empty, otherwise collect namespaces, resolve the apply directory, write
the rendered manifests there (return value discarded by the source) and
run `kpt live apply`. -/
def Deploy (k : Config) (env : DeployEnv) (s : ApplyState) :
    ApplyState × List Stage × Except String (List String) :=
  match renderManifests k env.pipe with
  | (tr, .error e) => (s, tr, .error e)
  | (tr, .ok manifests) =>
  if manifests.length = 0 then (s, tr, .ok [])
  else
    let namespaces :=
      match env.collectNs with
      | .error _ => []
      | .ok ns => ns
    match getApplyDir k env.applyEnv s with
    | (s', tra, .error e) =>
        (s', tr ++ tra, .error ("getting applyDir: " ++ e))
    | (s', tra, .ok _) =>
      match env.liveApplyRes with
      | .error e => (s', tr ++ tra ++ [.liveApply], .error e)
      | .ok _ => (s', tr ++ tra ++ [.liveApply], .ok namespaces)

/-- The trace `kustomizeBuild` leaves when it succeeds: the `kustomize
build` command exactly when a kustomization config is present. -/
def kbTrace (env : PipeEnv) : List Stage :=
  if env.hasKustomization then [.kustomizeBuild] else []

/-- The kustomize stage succeeds: either no kustomization config is
present, or the build, the dependency lookup and the dry-copy removal
all succeed. -/
def kbOk (env : PipeEnv) : Prop :=
  env.hasKustomization = true →
    env.kustomizeBuildRes = .ok () ∧ (∃ d, env.kustomizeDeps = .ok d) ∧
      env.removeDepsRes = .ok ()

theorem readConfigs_ok (env : PipeEnv) (b : String)
    (hs : env.fnSourceOut = .ok b) (hk : env.fnSinkRes = .ok ()) :
    readConfigs env = ([.fnSource, .fnSink], .ok ()) := by
  unfold readConfigs
  rw [hs, hk]

theorem kustomizeBuild_ok (env : PipeEnv) (h : kbOk env) :
    kustomizeBuild env = (kbTrace env, .ok ()) := by
  unfold kustomizeBuild kbTrace
  cases hk : env.hasKustomization with
  | false => rfl
  | true =>
    obtain ⟨h1, ⟨d, h2⟩, h3⟩ := h hk
    rw [h1, h2, h3]
    rfl

theorem getKptFnRunArgs_both (k : Config)
    (hf : k.fn.fnPath.length > 0) (hi : k.fn.image.length > 0) :
    getKptFnRunArgs k =
      .error "only one of `fn-path` or `image` may be specified" := by
  simp [getKptFnRunArgs, hf, hi]

theorem kptFnRun_bothSet (k : Config) (env : PipeEnv)
    (hf : k.fn.fnPath.length > 0) (hi : k.fn.image.length > 0) :
    kptFnRun k env =
      ([], .error ("getting kpt fn run args: "
        ++ "only one of `fn-path` or `image` may be specified")) := by
  unfold kptFnRun
  rw [getKptFnRunArgs_both k hf hi]

theorem readConfigs_trace (env : PipeEnv) :
    (readConfigs env).1 = [.fnSource] ∨
      (readConfigs env).1 = [.fnSource, .fnSink] := by
  unfold readConfigs
  cases env.fnSourceOut with
  | error e => left; rfl
  | ok b =>
    cases env.fnSinkRes with
    | error e => right; rfl
    | ok u => right; rfl

theorem kustomizeBuild_trace (env : PipeEnv) :
    (kustomizeBuild env).1 = [] ∨
      (kustomizeBuild env).1 = [.kustomizeBuild] := by
  unfold kustomizeBuild
  cases env.hasKustomization with
  | false => left; rfl
  | true =>
    cases env.kustomizeBuildRes with
    | error e => right; rfl
    | ok u =>
      cases env.kustomizeDeps with
      | error e => right; rfl
      | ok d =>
        cases env.removeDepsRes with
        | error e => right; rfl
        | ok u2 => right; rfl

theorem fnRun_not_mem_pre (tr1 tr2 : List Stage)
    (h1 : tr1 = [.fnSource] ∨ tr1 = [.fnSource, .fnSink])
    (h2 : tr2 = [] ∨ tr2 = [.kustomizeBuild]) :
    Stage.fnRun ∉ tr1 ++ tr2 := by
  rcases h1 with h1 | h1 <;> rcases h2 with h2 | h2 <;>
    subst h1 <;> subst h2 <;> decide

/-- C1 (amended): whenever both the function-path and the inline
function image are configured, `renderManifests` never spawns
`kpt fn run` and never succeeds; if the stages before the function run
(debug-registry lookup, scratch reset, `kpt fn source`/`kpt fn sink`
and the optional `kustomize build`) all succeed, the returned error is
exactly the wrapped mutual-exclusion configuration error — but those
earlier subprocesses have already run by then. -/
theorem renderManifests_bothSet (k : Config) (env : PipeEnv)
    (hf : k.fn.fnPath.length > 0) (hi : k.fn.image.length > 0) :
    (Stage.fnRun ∉ (renderManifests k env).1 ∧
      ∀ ms, (renderManifests k env).2 ≠ .ok ms) ∧
    (∀ (r b : String), env.debugRegistry = .ok r →
      env.removeAllRes = .ok () → env.mkdirAllRes = .ok () →
      env.fnSourceOut = .ok b → env.fnSinkRes = .ok () → kbOk env →
      renderManifests k env =
        ([Stage.fnSource, Stage.fnSink] ++ kbTrace env,
          .error ("running kpt functions: " ++ ("getting kpt fn run args: "
            ++ "only one of `fn-path` or `image` may be specified")))) := by
  constructor
  · cases hdr : env.debugRegistry with
    | error e => simp [renderManifests, hdr]
    | ok r =>
    cases hrm : env.removeAllRes with
    | error e => simp [renderManifests, hdr, hrm]
    | ok u0 =>
    cases hmk : env.mkdirAllRes with
    | error e => simp [renderManifests, hdr, hrm, hmk]
    | ok u1 =>
    cases hrc : readConfigs env with
    | mk tr1 res1 =>
    have htr1 := readConfigs_trace env
    rw [hrc] at htr1
    simp only at htr1
    cases res1 with
    | error e =>
      refine ⟨?_, by simp [renderManifests, hdr, hrm, hmk, hrc]⟩
      simp only [renderManifests, hdr, hrm, hmk, hrc]
      rcases htr1 with h | h <;> subst h <;> decide
    | ok u2 =>
    cases hkb : kustomizeBuild env with
    | mk tr2 res2 =>
    have htr2 := kustomizeBuild_trace env
    rw [hkb] at htr2
    simp only at htr2
    cases res2 with
    | error e =>
      refine ⟨?_, by simp [renderManifests, hdr, hrm, hmk, hrc, hkb]⟩
      simp only [renderManifests, hdr, hrm, hmk, hrc, hkb]
      exact fnRun_not_mem_pre tr1 tr2 htr1 htr2
    | ok u3 =>
    have hfr := kptFnRun_bothSet k env hf hi
    refine ⟨?_, by simp [renderManifests, hdr, hrm, hmk, hrc, hkb, hfr]⟩
    simp only [renderManifests, hdr, hrm, hmk, hrc, hkb, hfr, List.append_nil]
    exact fnRun_not_mem_pre tr1 tr2 htr1 htr2
  · intro r b hdr hrm hmk hsrc hsink hkbok
    have h1 := readConfigs_ok env b hsrc hsink
    have h2 := kustomizeBuild_ok env hkbok
    have h3 := kptFnRun_bothSet k env hf hi
    simp [renderManifests, hdr, hrm, hmk, h1, h2, h3]

/-- A configuration with both the function-path and the inline function
image set, and an environment where every stage before the function run
succeeds (no kustomization present). -/
def bothSetConfig : Config :=
  { dir := "base",
    fn := { fnPath := "fns/fn.yaml", image := "gcr.io/fn:v1",
            globalScope := false, mount := [], network := false,
            networkName := "" },
    live :=
      { apply := { dir := "", inventoryID := "", inventoryNamespace := "" },
        options := { pollPeriod := "", prunePropagationPolicy := "",
                     pruneTimeout := "", reconcileTimeout := "" } } }

/-- Companion environment for `bothSetConfig`: all collaborators before
the function run succeed. -/
def bothSetEnv : PipeEnv :=
  { debugRegistry := .ok "gcr.io/debug",
    removeAllRes := .ok (),
    mkdirAllRes := .ok (),
    fnSourceOut := .ok "apiVersion: v1",
    fnSinkRes := .ok (),
    hasKustomization := false,
    kustomizeBuildRes := .ok (),
    kustomizeDeps := .ok [],
    removeDepsRes := .ok (),
    fnRunOut := .ok [],
    replaceImagesFn := fun ms => .ok ms,
    transformsFns := [],
    setLabelsFn := fun ms => .ok ms }

/-- C1 counterexample: with both `fn-path` and `image` configured, the
pipeline does return the mutual-exclusion configuration error, but the
`kpt fn source` and `kpt fn sink` subprocesses have already been spawned
before the error is reported — refuting "no external command runs before
this error is returned". -/
theorem renderManifests_bothSet_counterexample :
    renderManifests bothSetConfig bothSetEnv =
      ([Stage.fnSource, Stage.fnSink],
        .error ("running kpt functions: getting kpt fn run args: "
          ++ "only one of `fn-path` or `image` may be specified"))
    ∧ Stage.fnSource ∈ (renderManifests bothSetConfig bothSetEnv).1 := by
  constructor
  · rfl
  · decide

/-- A witness run of the amended C1 theorem on the concrete
configuration with both options set: `kpt fn run` is never spawned and
the pipeline returns the wrapped configuration error after the
source/sink subprocesses. -/
theorem renderManifests_bothSet_witness :
    Stage.fnRun ∉ (renderManifests bothSetConfig bothSetEnv).1 ∧
    renderManifests bothSetConfig bothSetEnv =
      ([Stage.fnSource, Stage.fnSink] ++ kbTrace bothSetEnv,
        .error ("running kpt functions: " ++ ("getting kpt fn run args: "
          ++ "only one of `fn-path` or `image` may be specified"))) :=
  ⟨(renderManifests_bothSet bothSetConfig bothSetEnv (by decide) (by decide)).1.1,
   (renderManifests_bothSet bothSetConfig bothSetEnv (by decide) (by decide)).2
     "gcr.io/debug" "apiVersion: v1" rfl rfl rfl rfl rfl
     (fun h => Bool.noConfusion h)⟩

/-- C8: when every stage up to and including the kpt function run
succeeds and the function run emits zero documents, `renderManifests`
returns the empty manifest set with no error, and the trace ends at the
function run — the annotation filter, image substitution, transform
hooks and label injection never run; `Deploy` then returns success with
no namespaces, leaves the filesystem state untouched and spawns neither
`kpt live init` nor `kpt live apply`. -/
theorem pipeline_empty_short_circuit (k : Config) (env : DeployEnv)
    (s : ApplyState) (r b : String) (fl : List String)
    (hdr : env.pipe.debugRegistry = .ok r)
    (hrm : env.pipe.removeAllRes = .ok ())
    (hmk : env.pipe.mkdirAllRes = .ok ())
    (hsrc : env.pipe.fnSourceOut = .ok b)
    (hsink : env.pipe.fnSinkRes = .ok ())
    (hkb : kbOk env.pipe)
    (hargs : getKptFnRunArgs k = .ok fl)
    (hrun : env.pipe.fnRunOut = .ok []) :
    renderManifests k env.pipe =
      ([Stage.fnSource, Stage.fnSink] ++ kbTrace env.pipe ++ [Stage.fnRun],
        .ok [])
    ∧ Deploy k env s =
      (s, [Stage.fnSource, Stage.fnSink] ++ kbTrace env.pipe ++ [Stage.fnRun],
        .ok [])
    ∧ ∀ st ∈ [Stage.fnSource, Stage.fnSink] ++ kbTrace env.pipe
        ++ [Stage.fnRun],
        st ≠ .excludeFilter ∧ st ≠ .replaceImages ∧ st ≠ .transforms ∧
          st ≠ .setLabels ∧ st ≠ .liveInit ∧ st ≠ .liveApply := by
  have hfr : kptFnRun k env.pipe = ([Stage.fnRun], .ok []) := by
    unfold kptFnRun
    rw [hargs, hrun]
  have hrender : renderManifests k env.pipe =
      ([Stage.fnSource, Stage.fnSink] ++ kbTrace env.pipe ++ [Stage.fnRun],
        .ok []) := by
    simp [renderManifests, hdr, hrm, hmk,
      readConfigs_ok env.pipe b hsrc hsink, kustomizeBuild_ok env.pipe hkb,
      hfr, renderTail]
  refine ⟨hrender, ?_, ?_⟩
  · simp [Deploy, hrender]
  · cases hk : env.pipe.hasKustomization <;> simp [kbTrace, hk]

/-- A witness run of the short-circuit theorem on a concrete
configuration and environment whose function run emits zero documents. -/
theorem pipeline_empty_short_circuit_witness :
    renderManifests
        { dir := "base",
          fn := { fnPath := "", image := "", globalScope := false,
                  mount := [], network := false, networkName := "" },
          live :=
            { apply := { dir := "", inventoryID := "", inventoryNamespace := "" },
              options := { pollPeriod := "", prunePropagationPolicy := "",
                           pruneTimeout := "", reconcileTimeout := "" } } }
        { debugRegistry := .ok "gcr.io/debug",
          removeAllRes := .ok (), mkdirAllRes := .ok (),
          fnSourceOut := .ok "", fnSinkRes := .ok (),
          hasKustomization := false, kustomizeBuildRes := .ok (),
          kustomizeDeps := .ok [], removeDepsRes := .ok (),
          fnRunOut := .ok [],
          replaceImagesFn := fun ms => .ok ms,
          transformsFns := [],
          setLabelsFn := fun ms => .ok ms } =
      ([Stage.fnSource, Stage.fnSink]
        ++ kbTrace
          { debugRegistry := .ok "gcr.io/debug",
            removeAllRes := .ok (), mkdirAllRes := .ok (),
            fnSourceOut := .ok "", fnSinkRes := .ok (),
            hasKustomization := false, kustomizeBuildRes := .ok (),
            kustomizeDeps := .ok [], removeDepsRes := .ok (),
            fnRunOut := .ok [],
            replaceImagesFn := fun ms => .ok ms,
            transformsFns := [],
            setLabelsFn := fun ms => .ok ms }
        ++ [Stage.fnRun], .ok []) :=
  (pipeline_empty_short_circuit
    { dir := "base",
      fn := { fnPath := "", image := "", globalScope := false,
              mount := [], network := false, networkName := "" },
      live :=
        { apply := { dir := "", inventoryID := "", inventoryNamespace := "" },
          options := { pollPeriod := "", prunePropagationPolicy := "",
                       pruneTimeout := "", reconcileTimeout := "" } } }
    { pipe :=
        { debugRegistry := .ok "gcr.io/debug",
          removeAllRes := .ok (), mkdirAllRes := .ok (),
          fnSourceOut := .ok "", fnSinkRes := .ok (),
          hasKustomization := false, kustomizeBuildRes := .ok (),
          kustomizeDeps := .ok [], removeDepsRes := .ok (),
          fnRunOut := .ok [],
          replaceImagesFn := fun ms => .ok ms,
          transformsFns := [],
          setLabelsFn := fun ms => .ok ms },
      collectNs := .ok [],
      applyEnv := { mkdirHydratedRes := .ok (), liveInitRes := .ok () },
      liveApplyRes := .ok () }
    { explicitDirExists := false, hydratedExists := false,
      markerExists := false }
    "gcr.io/debug" "" ["--dry-run"]
    rfl rfl rfl rfl rfl (fun h => Bool.noConfusion h) rfl rfl).1

/-- C9: the Apply-Directory Resolver. With an explicitly configured
apply directory that does not exist, it returns a not-found error,
spawns nothing and leaves the filesystem state untouched (the directory
is never created). With no configured apply directory and succeeding
collaborators, it returns the fixed hidden directory `.kpt-hydrated`,
creates it, and spawns `kpt live init` exactly when the
inventory-template marker is absent; on a fresh project the first call
spawns the initialization once and the second call spawns no
subprocess. -/
theorem getApplyDir_spec (k : Config) (env : ApplyEnv) (s : ApplyState) :
    (k.live.apply.dir.length > 0 → s.explicitDirExists = false →
      (getApplyDir k env s).1 = s ∧ (getApplyDir k env s).2.1 = [] ∧
        (getApplyDir k env s).2.2 =
          .error ("stat " ++ k.live.apply.dir ++ ": no such file or directory"))
    ∧ (k.live.apply.dir.length = 0 → env.mkdirHydratedRes = .ok () →
        env.liveInitRes = .ok () →
        ((getApplyDir k env s).2.2 = .ok kptHydrated ∧
          ((getApplyDir k env s).1).hydratedExists = true ∧
          (Stage.liveInit ∈ (getApplyDir k env s).2.1 ↔
            s.markerExists = false) ∧
          (s.markerExists = false →
            (getApplyDir k env s).2.1 = [Stage.liveInit] ∧
            (getApplyDir k env (getApplyDir k env s).1).2.1 = []))) := by
  constructor
  · intro hd he
    simp [getApplyDir, hd, he]
  · intro hd hm hi
    have hd' : ¬k.live.apply.dir.length > 0 := by omega
    cases hmark : s.markerExists with
    | false => simp [getApplyDir, hd', hm, hi, hmark]
    | true => simp [getApplyDir, hd', hm, hi, hmark]

/-- A witness run of the Apply-Directory Resolver theorem on a fresh
project: the first call returns `.kpt-hydrated` and spawns the one-time
`kpt live init`; the second call, on the state the first call produced,
spawns no subprocess. -/
theorem getApplyDir_spec_witness :
    ((getApplyDir
        { dir := "base",
          fn := { fnPath := "", image := "", globalScope := false,
                  mount := [], network := false, networkName := "" },
          live :=
            { apply := { dir := "", inventoryID := "", inventoryNamespace := "" },
              options := { pollPeriod := "", prunePropagationPolicy := "",
                           pruneTimeout := "", reconcileTimeout := "" } } }
        { mkdirHydratedRes := .ok (), liveInitRes := .ok () }
        { explicitDirExists := false, hydratedExists := false,
          markerExists := false }).2.2 = .ok kptHydrated)
    ∧ ((getApplyDir
        { dir := "base",
          fn := { fnPath := "", image := "", globalScope := false,
                  mount := [], network := false, networkName := "" },
          live :=
            { apply := { dir := "", inventoryID := "", inventoryNamespace := "" },
              options := { pollPeriod := "", prunePropagationPolicy := "",
                           pruneTimeout := "", reconcileTimeout := "" } } }
        { mkdirHydratedRes := .ok (), liveInitRes := .ok () }
        { explicitDirExists := false, hydratedExists := false,
          markerExists := false }).2.1 = [Stage.liveInit])
    ∧ ((getApplyDir
        { dir := "base",
          fn := { fnPath := "", image := "", globalScope := false,
                  mount := [], network := false, networkName := "" },
          live :=
            { apply := { dir := "", inventoryID := "", inventoryNamespace := "" },
              options := { pollPeriod := "", prunePropagationPolicy := "",
                           pruneTimeout := "", reconcileTimeout := "" } } }
        { mkdirHydratedRes := .ok (), liveInitRes := .ok () }
        (getApplyDir
          { dir := "base",
            fn := { fnPath := "", image := "", globalScope := false,
                    mount := [], network := false, networkName := "" },
            live :=
              { apply := { dir := "", inventoryID := "", inventoryNamespace := "" },
                options := { pollPeriod := "", prunePropagationPolicy := "",
                             pruneTimeout := "", reconcileTimeout := "" } } }
          { mkdirHydratedRes := .ok (), liveInitRes := .ok () }
          { explicitDirExists := false, hydratedExists := false,
            markerExists := false }).1).2.1 = []) := by
  have h :=
    (getApplyDir_spec
      { dir := "base",
        fn := { fnPath := "", image := "", globalScope := false,
                mount := [], network := false, networkName := "" },
        live :=
          { apply := { dir := "", inventoryID := "", inventoryNamespace := "" },
            options := { pollPeriod := "", prunePropagationPolicy := "",
                         pruneTimeout := "", reconcileTimeout := "" } } }
      { mkdirHydratedRes := .ok (), liveInitRes := .ok () }
      { explicitDirExists := false, hydratedExists := false,
        markerExists := false }).2 rfl rfl rfl
  exact ⟨h.1, (h.2.2.2 rfl).1, (h.2.2.2 rfl).2⟩

end KptDeploy
